import Mathlib

/-!
Verification development for the Gemini deposits service (`src/app.py`).

The dialogue core of the service is shallowly embedded here:

* Python `None`/JSON `null` and string values become `PyVal`.
* The `deposit_info` dictionary becomes an association list `PyDict`
  (first-match lookup, insertion-ordered, unique keys in every dict the
  program actually builds).
* Fallible Python operations (`d[k]` indexing, `int(...)`, `float(...)`,
  `json.loads(...)`) are embedded in `Except PyErr`; an uncaught `PyErr`
  corresponds to the route handler's `except` branch returning the
  HTTP 500 "Internal server error" response.
* `float` values only ever arise from parsing decimal strings and being
  compared against integer thresholds, so they are embedded as exact
  rationals.
* The Gemini collaborator is an external component; its responses enter
  the embedding as explicit `Except String String` arguments (in Python,
  `model.generate_content` either returns text or raises).
-/

/-- Values stored in `deposit_info` and produced by the extraction JSON:
either Python `None` (JSON `null`) or a string. -/
inductive PyVal where
  | null : PyVal
  | str : String → PyVal
deriving DecidableEq, Repr

/-- Python truthiness restricted to the values above: `None` and the empty
string are falsy, every other string is truthy. -/
def PyVal.truthy : PyVal → Bool
  | PyVal.null => false
  | PyVal.str s => !(s == "")

/-- Exceptions the embedded code can raise: `KeyError` from dict
indexing, `ValueError` from `int(...)` / `float(...)` / `json.loads(...)`,
`TypeError` from passing `None` where a string is required. -/
inductive PyErr where
  | keyError (k : String)
  | valueError
  | typeError
deriving DecidableEq, Repr

instance {ε α : Type} [DecidableEq ε] [DecidableEq α] : DecidableEq (Except ε α) := fun x y =>
  match x, y with
  | Except.ok a, Except.ok b =>
      if h : a = b then Decidable.isTrue (by rw [h])
      else Decidable.isFalse (by intro hh; cases hh; exact h rfl)
  | Except.error a, Except.error b =>
      if h : a = b then Decidable.isTrue (by rw [h])
      else Decidable.isFalse (by intro hh; cases hh; exact h rfl)
  | Except.ok _, Except.error _ => Decidable.isFalse (by intro hh; cases hh)
  | Except.error _, Except.ok _ => Decidable.isFalse (by intro hh; cases hh)

/-- A Python dict with string keys, as an insertion-ordered association
list. -/
abbrev PyDict := List (String × PyVal)

/-- First-match association-list lookup (Python dict lookup; the dicts
built by the program have unique keys). -/
def assocFind {β : Type} : List (String × β) → String → Option β
  | [], _ => Option.none
  | (k, v) :: d, key => if k = key then some v else assocFind d key

/-- Lookup in a `PyDict`. -/
def dictFind (d : PyDict) (k : String) : Option PyVal := assocFind d k

/-- Python `d[k]`: the value, or a raised `KeyError`. -/
def dictIndex (d : PyDict) (k : String) : Except PyErr PyVal :=
  match dictFind d k with
  | some v => Except.ok v
  | Option.none => Except.error (PyErr.keyError k)

/-- Python `d.get(k)`: the value, or `None` when the key is absent. -/
def dictGetD (d : PyDict) (k : String) : PyVal :=
  (dictFind d k).getD PyVal.null

/-- Whether a key is present in the dict. -/
def dictHasKey : PyDict → String → Bool
  | [], _ => false
  | (k, _) :: d, key => if k = key then true else dictHasKey d key

/-- Python `d[k] = v`: replace the value in place when the key exists
(preserving insertion order), otherwise append the new entry. -/
def dictSet : PyDict → String → PyVal → PyDict
  | [], key, v => [(key, v)]
  | (a, b) :: d, key, v =>
      if a = key then (key, v) :: d else (a, b) :: dictSet d key v

/-- The keys of a dict are pairwise distinct (true of every dict the
program builds, and preserved by `dictSet`). -/
def dictKeysNodup (d : PyDict) : Prop := (d.map Prod.fst).Nodup

instance (d : PyDict) : Decidable (dictKeysNodup d) := by
  unfold dictKeysNodup; infer_instance

/-- Characters Python `str.strip()` removes (the ones relevant here). -/
def pyWsChar (c : Char) : Bool :=
  (c == ' ') || (c == '\t') || (c == '\n') || (c == '\r')

/-- Strip leading and trailing whitespace from a character list. -/
def stripChars (l : List Char) : List Char :=
  ((l.dropWhile pyWsChar).reverse.dropWhile pyWsChar).reverse

/-- Python `s.strip()`. -/
def pyStrip (s : String) : String := String.mk (stripChars s.toList)

/-- Python `s.lower()` (ASCII case folding suffices here). -/
def pyLower (s : String) : String := String.mk (s.toList.map Char.toLower)

/-- Python `s[n:]`. -/
def pyDrop (s : String) (n : Nat) : String := String.mk (s.toList.drop n)

/-- Python `s[:-n]`. -/
def pyDropRight (s : String) (n : Nat) : String :=
  String.mk (s.toList.take (s.toList.length - n))

/-- Python `s.startswith(p)`. -/
def pyStartsWith (s p : String) : Bool := p.toList.isPrefixOf s.toList

/-- Python `s.endswith(p)`. -/
def pyEndsWith (s p : String) : Bool := p.toList.isSuffixOf s.toList

/-- Numeric value of a list of decimal digit characters. -/
def digitsToNat (l : List Char) : Nat :=
  l.foldl (fun a c => a * 10 + (c.toNat - 48)) 0

/-- Python `int(s)` on the strings this program feeds it: optional sign,
then decimal digits; anything else raises `ValueError` (`Option.none`). -/
def pyInt? (s : String) : Option Int :=
  match stripChars s.toList with
  | '-' :: rest =>
      if !rest.isEmpty && rest.all Char.isDigit then
        some (-(digitsToNat rest : Int))
      else Option.none
  | '+' :: rest =>
      if !rest.isEmpty && rest.all Char.isDigit then
        some ((digitsToNat rest : Int))
      else Option.none
  | cs =>
      if !cs.isEmpty && cs.all Char.isDigit then
        some ((digitsToNat cs : Int))
      else Option.none

/-- Unsigned part of Python `float(s)`: decimal digits with an optional
fractional part, as an exact rational. -/
def pyFloatMag? (cs : List Char) : Option ℚ :=
  let ip := cs.takeWhile Char.isDigit
  match cs.drop ip.length with
  | [] => if ip.isEmpty then Option.none else some (mkRat (digitsToNat ip) 1)
  | '.' :: fp =>
      if fp.all Char.isDigit && (!ip.isEmpty || !fp.isEmpty) then
        some (mkRat (digitsToNat ip * 10 ^ fp.length + digitsToNat fp) (10 ^ fp.length))
      else Option.none
  | _ => Option.none

/-- Python `float(s)` on decimal strings (no exponents or `inf`, which
never occur here); failure models the raised `ValueError`. -/
def pyFloat? (s : String) : Option ℚ :=
  match stripChars s.toList with
  | '-' :: rest => (pyFloatMag? rest).map (fun q => -q)
  | '+' :: rest => pyFloatMag? rest
  | cs => pyFloatMag? cs

/-- Python `int(v)` on a stored slot value. -/
def pyIntVal (v : PyVal) : Except PyErr Int :=
  match v with
  | PyVal.str s =>
      match pyInt? s with
      | some n => Except.ok n
      | Option.none => Except.error PyErr.valueError
  | PyVal.null => Except.error PyErr.typeError

/-- Python `float(v)` on a stored slot value. -/
def pyFloatVal (v : PyVal) : Except PyErr ℚ :=
  match v with
  | PyVal.str s =>
      match pyFloat? s with
      | some q => Except.ok q
      | Option.none => Except.error PyErr.valueError
  | PyVal.null => Except.error PyErr.typeError

/-- Opening brace character (written via its code point). -/
def lbraceChar : Char := Char.ofNat 123

/-- Closing brace character (written via its code point). -/
def rbraceChar : Char := Char.ofNat 125

/-- Double-quote character. -/
def quoteChar : Char := Char.ofNat 34

/-- Backslash character. -/
def backslashChar : Char := Char.ofNat 92

/-- Skip JSON whitespace. -/
def skipWs : List Char → List Char
  | [] => []
  | c :: cs => if pyWsChar c then skipWs cs else c :: cs

/-- Parse a JSON string literal without escape sequences (the extraction
schema only produces plain field names and values). -/
def parseJsonString (cs : List Char) : Option (String × List Char) :=
  match cs with
  | c :: rest =>
      if c = quoteChar then
        let content := rest.takeWhile (fun d => !(d == quoteChar) && !(d == backslashChar))
        match rest.drop content.length with
        | d :: rest2 => if d = quoteChar then some (String.mk content, rest2) else Option.none
        | [] => Option.none
      else Option.none
  | [] => Option.none

/-- Parse a JSON value of the extraction schema: `null` or a string. -/
def parseJsonVal (cs : List Char) : Option (PyVal × List Char) :=
  match skipWs cs with
  | 'n' :: 'u' :: 'l' :: 'l' :: rest => some (PyVal.null, rest)
  | cs' => (parseJsonString cs').map (fun p => (PyVal.str p.1, p.2))

/-- Parse the members of a JSON object up to and including the closing
brace, with explicit fuel for termination. -/
def parseJsonMembers : Nat → List Char → Option (PyDict × List Char)
  | 0, _ => Option.none
  | Nat.succ fuel, cs =>
    match parseJsonString (skipWs cs) with
    | Option.none => Option.none
    | some (k, rest) =>
      match skipWs rest with
      | c :: rest2 =>
          if c = ':' then
            match parseJsonVal rest2 with
            | Option.none => Option.none
            | some (v, rest3) =>
              match skipWs rest3 with
              | c2 :: rest4 =>
                  if c2 = ',' then
                    (parseJsonMembers fuel rest4).map (fun p => ((k, v) :: p.1, p.2))
                  else if c2 = rbraceChar then some ([(k, v)], rest4)
                  else Option.none
              | [] => Option.none
          else Option.none
      | [] => Option.none

/-- Python `json.loads(s)` restricted to the flat objects of the
extraction schema (string keys, string-or-null values). Any other input
— in particular free prose from the model — raises, exactly as
`json.loads` raises `JSONDecodeError` on it. -/
def pyJsonLoads (s : String) : Except PyErr PyDict :=
  match skipWs s.toList with
  | c :: rest =>
      if c = lbraceChar then
        match skipWs rest with
        | c2 :: rest2 =>
            if c2 = rbraceChar then
              if (skipWs rest2).isEmpty then Except.ok [] else Except.error PyErr.valueError
            else
              match parseJsonMembers (s.toList.length + 1) (c2 :: rest2) with
              | some (d, rem) =>
                  if (skipWs rem).isEmpty then Except.ok d else Except.error PyErr.valueError
              | Option.none => Except.error PyErr.valueError
        | [] => Except.error PyErr.valueError
      else Except.error PyErr.valueError
  | [] => Except.error PyErr.valueError

/-- The fresh `deposit_info` dict built by `create_new_session`
(src/app.py lines 161-170), with the Python dict literal's insertion
order. -/
def mkInfo (dt ft am tn ip ro nn nr : PyVal) : PyDict :=
  [("deposit_type", dt), ("fd_type", ft), ("amount", am), ("tenure_months", tn),
   ("interest_payout", ip), ("renewal_option", ro), ("nominee_name", nn),
   ("nominee_relation", nr)]

/-- The initial slot set of a new session: every field `None`. -/
def initial_deposit_info : PyDict :=
  mkInfo PyVal.null PyVal.null PyVal.null PyVal.null PyVal.null PyVal.null
    PyVal.null PyVal.null

/-- Embedding of `get_gemini_response` (src/app.py lines 56-62): the
collaborator's text on success, the literal two-character string of an
empty JSON object (the source's `'\x7b\x7d'`) when the API call raised. -/
def get_gemini_response (resp : Except String String) : String :=
  match resp with
  | Except.ok text => text
  | Except.error _ => "\x7b\x7d"

/-- Embedding of `get_deposit_details` (src/app.py lines 64-137): take the
collaborator response, strip an optional markdown code fence, and
`json.loads` the rest. A parse failure propagates as a raised error, as
in the source (there is no `try` around `json.loads`). -/
def get_deposit_details (resp : Except String String) : Except PyErr PyDict :=
  let response := get_gemini_response resp
  let json_str := pyStrip response
  let json_str2 := if pyStartsWith json_str "```json" then pyDrop json_str 7 else json_str
  let json_str3 := if pyEndsWith json_str2 "```" then pyDropRight json_str2 3 else json_str2
  pyJsonLoads (pyStrip json_str3)

/-- Embedding of the amount checks of `validate_deposit_info`
(src/app.py lines 192, 195, 201): `if deposit_info['amount'] and
float(deposit_info['amount']) < minV: errors.append(msg)`. -/
def check_min_amount (info : PyDict) (minV : ℚ) (msg : String) : Except PyErr (List String) :=
  match dictIndex info "amount" with
  | Except.error e => Except.error e
  | Except.ok am =>
      if am.truthy then
        match pyFloatVal am with
        | Except.error e => Except.error e
        | Except.ok q => if q < minV then Except.ok [msg] else Except.ok []
      else Except.ok []

/-- Embedding of the tenure checks of `validate_deposit_info`
(src/app.py lines 197, 204): `if deposit_info['tenure_months'] and p(
int(deposit_info['tenure_months'])): errors.append(msg)`. -/
def check_tenure (info : PyDict) (p : Int → Bool) (msg : String) : Except PyErr (List String) :=
  match dictIndex info "tenure_months" with
  | Except.error e => Except.error e
  | Except.ok tn =>
      if tn.truthy then
        match pyIntVal tn with
        | Except.error e => Except.error e
        | Except.ok n => if p n then Except.ok [msg] else Except.ok []
      else Except.ok []

/-- Embedding of the variant-specific block of `validate_deposit_info`
(src/app.py lines 188-202): the FD branch (missing `fd_type`, Regular
and Tax-Saver rules) and the RD branch. -/
def variant_rules (info : PyDict) : Except PyErr (List String) :=
  match dictIndex info "deposit_type" with
  | Except.error e => Except.error e
  | Except.ok dt =>
      if dt = PyVal.str "FD" then
        match dictIndex info "fd_type" with
        | Except.error e => Except.error e
        | Except.ok ft =>
            if ft.truthy = false then
              Except.ok ["Please specify FD type (Regular or Tax Saver)"]
            else if ft = PyVal.str "REGULAR" then
              check_min_amount info 1000 "Regular FD minimum amount is Rs. 1,000"
            else if ft = PyVal.str "TAX_SAVER" then
              match check_min_amount info 5000 "Tax Saver FD minimum amount is Rs. 5,000" with
              | Except.error e => Except.error e
              | Except.ok e1 =>
                  match check_tenure info (fun n => n != 60)
                      "Tax Saver FD tenure must be 5 years (60 months)" with
                  | Except.error e => Except.error e
                  | Except.ok e2 => Except.ok (e1 ++ e2)
            else Except.ok []
      else if dt = PyVal.str "RD" then
        check_min_amount info 5000 "RD minimum monthly installment is Rs. 5,000"
      else Except.ok []

/-- Embedding of `validate_deposit_info` (src/app.py lines 185-207):
the variant-specific rules followed by the unconditional minimum-tenure
rule, accumulating messages in source order. -/
def validate_deposit_info (info : PyDict) : Except PyErr (List String) :=
  match variant_rules info with
  | Except.error e => Except.error e
  | Except.ok errs1 =>
      match check_tenure info (fun n => decide (n < 3)) "Minimum tenure is 3 months" with
      | Except.error e => Except.error e
      | Except.ok errs2 => Except.ok (errs1 ++ errs2)

/-- The `friendly_fields` table of `format_confirmation` (src/app.py
lines 210-219). -/
def friendly_fields : List (String × String) :=
  [("deposit_type", "Deposit Type"), ("fd_type", "FD Type"), ("amount", "Amount"),
   ("tenure_months", "Tenure"), ("interest_payout", "Interest Payout"),
   ("renewal_option", "Renewal Option"), ("nominee_name", "Nominee Name"),
   ("nominee_relation", "Nominee Relationship")]

/-- Plain rendering of a value into an f-string. -/
def pyValStr : PyVal → String
  | PyVal.null => "None"
  | PyVal.str s => s

/-- Embedding of the tenure rendering of `format_confirmation`
(src/app.py lines 231-239): Python `//` and `%` are floor division and
modulus, hence `Int.fdiv` / `Int.fmod`. -/
def tenure_render (value : String) : Except PyErr String :=
  match pyInt? value with
  | Option.none => Except.error PyErr.valueError
  | some n =>
      let years := Int.fdiv n 12
      let months := Int.fmod n 12
      let parts :=
        (if years > 0 then [toString years ++ " year" ++ (if years > 1 then "s" else "")] else [])
          ++ (if months > 0 then [toString months ++ " month" ++ (if months > 1 then "s" else "")] else [])
      Except.ok (String.intercalate " and " parts)

/-- One iteration of the field loop of `format_confirmation`
(src/app.py lines 226-243), producing the line contributed by one
`deposit_info` entry (empty for skipped entries). -/
def confirmation_line (dtv : PyVal) (field : String) (v : PyVal) : Except PyErr String :=
  if v.truthy = false then Except.ok ""
  else if field = "amount" then
    let amount_label := if dtv = PyVal.str "RD" then "Monthly Installment" else "Principal Amount"
    Except.ok ("- " ++ amount_label ++ ": Rs. " ++ pyValStr v ++ "\n")
  else if field = "tenure_months" then
    match v with
    | PyVal.str s =>
        (match tenure_render s with
         | Except.error e => Except.error e
         | Except.ok t =>
             match assocFind friendly_fields field with
             | some label => Except.ok ("- " ++ label ++ ": " ++ t ++ "\n")
             | Option.none => Except.error (PyErr.keyError field))
    | PyVal.null => Except.error PyErr.typeError
  else if field = "interest_payout" ∧ dtv = PyVal.str "RD" then Except.ok ""
  else
    match assocFind friendly_fields field with
    | some label => Except.ok ("- " ++ label ++ ": " ++ pyValStr v ++ "\n")
    | Option.none => Except.error (PyErr.keyError field)

/-- Embedding of `format_confirmation` (src/app.py lines 209-251):
header, one line per truthy field in dict order, then the fixed
instruction block. -/
def format_confirmation (info : PyDict) : Except PyErr String :=
  match dictIndex info "deposit_type" with
  | Except.error e => Except.error e
  | Except.ok dtv =>
      match dictIndex info "fd_type" with
      | Except.error e => Except.error e
      | Except.ok ftv =>
          let header :=
            "Here\x27s a summary of your " ++ pyValStr dtv
              ++ (if ftv.truthy then " (" ++ pyValStr ftv ++ ")" else "")
              ++ " account details:\n\n"
          match info.foldlM
              (fun acc kv =>
                match confirmation_line dtv kv.1 kv.2 with
                | Except.error e => Except.error e
                | Except.ok line => Except.ok (acc ++ line))
              header with
          | Except.error e => Except.error e
          | Except.ok body =>
              Except.ok (body
                ++ "\nWhat would you like to do?\n"
                ++ "1. Say \x27confirm\x27 to proceed\n"
                ++ "2. Say \x27change [field]\x27 to modify (e.g., \x27change amount\x27)\n"
                ++ "3. Say \x27cancel\x27 to start over\n"
                ++ "4. Say \x27exit\x27 to quit\n")

/-- The always-required fields (src/app.py lines 310, 369, 405). -/
def base_required_fields : List String :=
  ["deposit_type", "amount", "tenure_months", "renewal_option"]

/-- The fields `required_fields.extend(...)` adds for FD
(src/app.py lines 312, 371, 407). -/
def fd_extra_fields : List String := ["fd_type", "interest_payout"]

/-- Embedding of the missing-required-fields computation on the
`/api/process` paths (src/app.py lines 310-315 and 369-374): the
deposit type is read by direct indexing, each required field by
`.get`. -/
def missing_fields_ix (info : PyDict) : Except PyErr (List String) :=
  match dictIndex info "deposit_type" with
  | Except.error e => Except.error e
  | Except.ok dt =>
      let required :=
        if dt = PyVal.str "FD" then base_required_fields ++ fd_extra_fields
        else base_required_fields
      Except.ok (required.filter (fun f => !(dictGetD info f).truthy))

/-- The required-fields list as computed by `/api/validate`
(src/app.py lines 405-407), which reads the deposit type with `.get`. -/
def required_fields_api (info : PyDict) : List String :=
  if dictGetD info "deposit_type" = PyVal.str "FD" then
    base_required_fields ++ fd_extra_fields
  else base_required_fields

/-- Result of the `/api/validate` endpoint, up to JSON serialisation. -/
inductive ApiValidateResult where
  | invalid (errors missing : List String)
  | valid
  | internalError
deriving DecidableEq, Repr

/-- Embedding of the `/api/validate` handler `validate_deposit`
(src/app.py lines 397-424) on a request body carrying the given
`deposit_info`; a raised error is caught by the handler's `except` and
becomes the 500 response. -/
def validate_deposit (deposit_info : PyDict) : ApiValidateResult :=
  match validate_deposit_info deposit_info with
  | Except.error _ => ApiValidateResult.internalError
  | Except.ok errors =>
      let missing := (required_fields_api deposit_info).filter
        (fun f => !(dictGetD deposit_info f).truthy)
      if errors.isEmpty && missing.isEmpty then ApiValidateResult.valid
      else ApiValidateResult.invalid errors missing

/-- The cancel command set (src/app.py line 291). -/
def cancel_words : List String := ["exit", "quit", "cancel", "stop"]

/-- The change-command alias table (src/app.py lines 333-341). -/
def field_mappings : List (String × List String) :=
  [("type", ["deposit_type", "fd_type"]),
   ("amount", ["amount"]),
   ("tenure", ["tenure_months"]),
   ("interest", ["interest_payout"]),
   ("payout", ["interest_payout"]),
   ("renewal", ["renewal_option"]),
   ("nominee", ["nominee_name", "nominee_relation"])]

/-- Embedding of the merge loop of `process_deposit` (src/app.py lines
356-358): `for key, value in updated_info.items(): if value:
deposit_info[key] = value`. -/
def merge_deposit_info (current updated : PyDict) : PyDict :=
  updated.foldl (fun acc kv => if kv.2.truthy then dictSet acc kv.1 kv.2 else acc) current

/-- The prompt sent back by a free-form turn, keeping the data the
source builds it from: a correction list, a confirmation summary, or
the collaborator's re-ask text together with the missing-field list the
collaborator was asked about (src/app.py lines 365-382). -/
inductive Prompt where
  | corrections (errors : List String)
  | confirmation (text : String)
  | askMissing (missing : List String) (text : String)
deriving DecidableEq, Repr

/-- The user-visible `next_prompt` string of a free-form turn. -/
def Prompt.render : Prompt → String
  | Prompt.corrections errors => "Please correct the following:\n" ++ String.intercalate "\n" errors
  | Prompt.confirmation text => text
  | Prompt.askMissing _ text => text

/-- Observable outcome of one `/api/process` turn (src/app.py lines
288-395): `proceed_to_pay` is `true` exactly for `confirmCompleted`,
and `internalError` is the handler's `except` branch (HTTP 500). -/
inductive TurnResult where
  | cancelled
  | confirmValidationFailed (errors : List String)
  | confirmIncomplete (missing : List String)
  | confirmCompleted (details : PyDict)
  | fieldChanged (info : PyDict) (field : String)
  | processed (info : PyDict) (prompt : Prompt)
  | internalError
deriving DecidableEq, Repr

/-- Embedding of the `confirm` branch of `process_deposit`
(src/app.py lines 301-329). -/
def confirm_turn (info : PyDict) : TurnResult :=
  match validate_deposit_info info with
  | Except.error _ => TurnResult.internalError
  | Except.ok errors =>
      if !errors.isEmpty then TurnResult.confirmValidationFailed errors
      else
        match missing_fields_ix info with
        | Except.error _ => TurnResult.internalError
        | Except.ok missing =>
            if !missing.isEmpty then TurnResult.confirmIncomplete missing
            else TurnResult.confirmCompleted info

/-- Embedding of the free-form tail of `process_deposit`
(src/app.py lines 352-391): extract, merge, validate, then either a
correction prompt, the confirmation summary, or a collaborator-written
re-ask for the missing fields. `extractResp` is the collaborator's
response to the extraction call; `missingResp` maps the missing-field
list of the re-ask request (line 379-382 passes it in the prompt) to
the collaborator's response. -/
def free_form_turn (info : PyDict) (extractResp : Except String String)
    (missingResp : List String → Except String String) : TurnResult :=
  match get_deposit_details extractResp with
  | Except.error _ => TurnResult.internalError
  | Except.ok updated_info =>
      let info2 := merge_deposit_info info updated_info
      match validate_deposit_info info2 with
      | Except.error _ => TurnResult.internalError
      | Except.ok errors =>
          if !errors.isEmpty then TurnResult.processed info2 (Prompt.corrections errors)
          else
            match missing_fields_ix info2 with
            | Except.error _ => TurnResult.internalError
            | Except.ok missing =>
                if missing.isEmpty then
                  match format_confirmation info2 with
                  | Except.error _ => TurnResult.internalError
                  | Except.ok text => TurnResult.processed info2 (Prompt.confirmation text)
                else
                  TurnResult.processed info2
                    (Prompt.askMissing missing (get_gemini_response (missingResp missing)))

/-- Embedding of the command dispatch and turn body of `process_deposit`
(src/app.py lines 288-391), for a session whose current slot set is
`info` and a non-empty `user_input` that passed the request checks. -/
def process_deposit (info : PyDict) (user_input : String)
    (extractResp : Except String String)
    (missingResp : List String → Except String String) : TurnResult :=
  let u := pyLower user_input
  if u ∈ cancel_words then TurnResult.cancelled
  else if u = "confirm" then confirm_turn info
  else if pyStartsWith u "change " then
    match assocFind field_mappings (pyStrip (pyDrop u 7)) with
    | some keys =>
        TurnResult.fieldChanged
          (keys.foldl (fun acc k => dictSet acc k PyVal.null) info)
          (pyStrip (pyDrop u 7))
    | Option.none => free_form_turn info extractResp missingResp
  else free_form_turn info extractResp missingResp

/-- The complete inventory of messages `validate_deposit_info` can emit
(src/app.py lines 190-205), in source order. -/
def validate_messages : List String :=
  ["Please specify FD type (Regular or Tax Saver)",
   "Regular FD minimum amount is Rs. 1,000",
   "Tax Saver FD minimum amount is Rs. 5,000",
   "Tax Saver FD tenure must be 5 years (60 months)",
   "RD minimum monthly installment is Rs. 5,000",
   "Minimum tenure is 3 months"]

theorem dictHasKey_iff_mem (d : PyDict) (k : String) :
    dictHasKey d k = true ↔ k ∈ d.map Prod.fst := by
  induction d with
  | nil => simp [dictHasKey]
  | cons kv d ih =>
      obtain ⟨a, b⟩ := kv
      by_cases h : a = k
      · simp [dictHasKey, h]
      · simp only [dictHasKey, if_neg h, List.map_cons, List.mem_cons, ih]
        constructor
        · intro hm; exact Or.inr hm
        · rintro (hm | hm)
          · exact absurd hm.symm h
          · exact hm

theorem dictFind_eq_none_of_hasKey_false (d : PyDict) (k : String)
    (h : dictHasKey d k = false) : dictFind d k = Option.none := by
  induction d with
  | nil => rfl
  | cons kv d ih =>
      obtain ⟨a, b⟩ := kv
      by_cases hak : a = k
      · simp [dictHasKey, hak] at h
      · simp only [dictHasKey, if_neg hak] at h
        simp only [dictFind, assocFind, if_neg hak]
        exact ih h

theorem dictHasKey_of_find_some (d : PyDict) (k : String) (v : PyVal)
    (h : dictFind d k = some v) : dictHasKey d k = true := by
  by_contra hc
  rw [dictFind_eq_none_of_hasKey_false d k (Bool.eq_false_iff.mpr hc)] at h
  cases h

theorem dictFind_dictSet_self (d : PyDict) (key : String) (v : PyVal) :
    dictFind (dictSet d key v) key = some v := by
  induction d with
  | nil => simp [dictSet, dictFind, assocFind]
  | cons kv d ih =>
      obtain ⟨a, b⟩ := kv
      by_cases hak : a = key
      · simp [dictSet, hak, dictFind, assocFind]
      · simp only [dictSet, if_neg hak, dictFind, assocFind, if_neg hak] at ih ⊢
        exact ih

theorem dictFind_dictSet_ne (d : PyDict) (key j : String) (v : PyVal) (h : j ≠ key) :
    dictFind (dictSet d key v) j = dictFind d j := by
  induction d with
  | nil =>
      simp only [dictSet, dictFind, assocFind]
      rw [if_neg (fun hh : key = j => h hh.symm)]
  | cons kv d ih =>
      obtain ⟨a, b⟩ := kv
      by_cases hak : a = key
      · subst hak
        simp only [dictSet, if_pos rfl, dictFind, assocFind]
        rw [if_neg (fun hh : a = j => h hh.symm), if_neg (fun hh : a = j => h hh.symm)]
      · simp only [dictSet, if_neg hak, dictFind, assocFind] at ih ⊢
        by_cases haj : a = j
        · rw [if_pos haj, if_pos haj]
        · rw [if_neg haj, if_neg haj]
          exact ih

theorem dictSet_map_fst (d : PyDict) (key : String) (v : PyVal) :
    (dictSet d key v).map Prod.fst
      = if dictHasKey d key then d.map Prod.fst else d.map Prod.fst ++ [key] := by
  induction d with
  | nil => simp [dictSet, dictHasKey]
  | cons kv d ih =>
      obtain ⟨a, b⟩ := kv
      by_cases hak : a = key
      · simp [dictSet, dictHasKey, hak]
      · by_cases hk : dictHasKey d key <;>
          simp [dictSet, dictHasKey, hak, hk, ih]

theorem dictKeysNodup_dictSet (d : PyDict) (key : String) (v : PyVal)
    (h : dictKeysNodup d) : dictKeysNodup (dictSet d key v) := by
  unfold dictKeysNodup at h ⊢
  rw [dictSet_map_fst]
  by_cases hk : dictHasKey d key
  · simpa [hk] using h
  · have hmem : key ∉ d.map Prod.fst := fun hm => by
      rw [(dictHasKey_iff_mem d key).mpr hm] at hk; exact hk rfl
    simp [hk, List.nodup_append, h, hmem]

theorem dictSet_eq_self (d : PyDict) (key : String) (v : PyVal)
    (h : dictFind d key = some v) : dictSet d key v = d := by
  induction d with
  | nil => cases h
  | cons kv d ih =>
      obtain ⟨a, b⟩ := kv
      by_cases hak : a = key
      · simp only [dictFind, assocFind, if_pos hak] at h
        have hb : b = v := by injection h
        simp [dictSet, hak, hb]
      · simp only [dictFind, assocFind, if_neg hak] at h
        simp [dictSet, hak, ih h]

theorem mem_dictFind (d : PyDict) (k : String) (v : PyVal)
    (hnd : dictKeysNodup d) (hm : (k, v) ∈ d) : dictFind d k = some v := by
  induction d with
  | nil => cases hm
  | cons kv d ih =>
      obtain ⟨a, b⟩ := kv
      rw [dictKeysNodup, List.map_cons, List.nodup_cons] at hnd
      rcases List.mem_cons.mp hm with heq | htail
      · injection heq with h1 h2
        subst h1; subst h2
        simp [dictFind, assocFind]
      · by_cases hak : a = k
        · exfalso
          apply hnd.1
          subst hak
          exact List.mem_map.mpr ⟨(a, v), htail, rfl⟩
        · simp only [dictFind, assocFind, if_neg hak]
          exact ih hnd.2 htail

theorem dictFind_merge (S E : PyDict) (f : String) (hE : dictKeysNodup E) :
    dictFind (merge_deposit_info S E) f =
      match dictFind E f with
      | some v => if v.truthy then some v else dictFind S f
      | Option.none => dictFind S f := by
  induction E generalizing S with
  | nil => rfl
  | cons kv E' ih =>
      obtain ⟨k, v⟩ := kv
      rw [dictKeysNodup, List.map_cons, List.nodup_cons] at hE
      have hE' : dictKeysNodup E' := hE.2
      have hstep : merge_deposit_info S ((k, v) :: E')
          = merge_deposit_info (if v.truthy then dictSet S k v else S) E' := rfl
      rw [hstep, ih _ hE']
      by_cases hf : f = k
      · subst hf
        have hEnone : dictFind E' f = Option.none :=
          dictFind_eq_none_of_hasKey_false _ _ (by
            rcases Bool.eq_false_or_eq_true (dictHasKey E' f) with h1 | h0
            · exact absurd ((dictHasKey_iff_mem E' f).mp h1) hE.1
            · exact h0)
        have hfind : dictFind ((f, v) :: E') f = some v := by simp [dictFind, assocFind]
        rw [hEnone, hfind]
        by_cases ht : v.truthy
        · simp [ht, dictFind_dictSet_self]
        · simp only [Bool.not_eq_true] at ht
          simp [ht]
      · have hfind : dictFind ((k, v) :: E') f = dictFind E' f := by
          simp only [dictFind, assocFind]
          rw [if_neg (fun hh : k = f => hf hh.symm)]
        rw [hfind]
        have hS : dictFind (if v.truthy then dictSet S k v else S) f = dictFind S f := by
          by_cases ht : v.truthy
          · simp [ht, dictFind_dictSet_ne _ _ _ _ hf]
          · simp only [Bool.not_eq_true] at ht
            simp [ht]
        cases hE'f : dictFind E' f with
        | none => simpa [hE'f] using hS
        | some w => by_cases htw : w.truthy <;> simp [hE'f, htw, hS]

theorem merge_keys_nodup (S E : PyDict) (hS : dictKeysNodup S) :
    dictKeysNodup (merge_deposit_info S E) := by
  induction E generalizing S with
  | nil => exact hS
  | cons kv E' ih =>
      have hstep : merge_deposit_info S (kv :: E')
          = merge_deposit_info (if kv.2.truthy then dictSet S kv.1 kv.2 else S) E' := rfl
      rw [hstep]
      apply ih
      by_cases ht : kv.2.truthy
      · rw [if_pos ht]
        exact dictKeysNodup_dictSet _ _ _ hS
      · rw [if_neg ht]
        exact hS

theorem merge_absorb (S E : PyDict)
    (h : ∀ kv ∈ E, kv.2.truthy = true → dictFind S kv.1 = some kv.2) :
    merge_deposit_info S E = S := by
  induction E with
  | nil => rfl
  | cons kv E' ih =>
      have hstep : (if kv.2.truthy then dictSet S kv.1 kv.2 else S) = S := by
        by_cases ht : kv.2.truthy
        · rw [if_pos ht]
          exact dictSet_eq_self _ _ _ (h kv (List.mem_cons_self _ _) ht)
        · rw [if_neg ht]
      calc merge_deposit_info S (kv :: E')
          = merge_deposit_info (if kv.2.truthy then dictSet S kv.1 kv.2 else S) E' := rfl
        _ = merge_deposit_info S E' := by rw [hstep]
        _ = S := ih (fun kv2 hm ht => h kv2 (List.mem_cons_of_mem _ hm) ht)

@[simp] theorem find_mkInfo_deposit_type (dt ft am tn ip ro nn nr : PyVal) :
    dictFind (mkInfo dt ft am tn ip ro nn nr) "deposit_type" = some dt := rfl

@[simp] theorem find_mkInfo_fd_type (dt ft am tn ip ro nn nr : PyVal) :
    dictFind (mkInfo dt ft am tn ip ro nn nr) "fd_type" = some ft := rfl

@[simp] theorem find_mkInfo_amount (dt ft am tn ip ro nn nr : PyVal) :
    dictFind (mkInfo dt ft am tn ip ro nn nr) "amount" = some am := rfl

@[simp] theorem find_mkInfo_tenure (dt ft am tn ip ro nn nr : PyVal) :
    dictFind (mkInfo dt ft am tn ip ro nn nr) "tenure_months" = some tn := rfl

@[simp] theorem find_mkInfo_interest (dt ft am tn ip ro nn nr : PyVal) :
    dictFind (mkInfo dt ft am tn ip ro nn nr) "interest_payout" = some ip := rfl

@[simp] theorem find_mkInfo_renewal (dt ft am tn ip ro nn nr : PyVal) :
    dictFind (mkInfo dt ft am tn ip ro nn nr) "renewal_option" = some ro := rfl

@[simp] theorem find_mkInfo_nominee_name (dt ft am tn ip ro nn nr : PyVal) :
    dictFind (mkInfo dt ft am tn ip ro nn nr) "nominee_name" = some nn := rfl

@[simp] theorem find_mkInfo_nominee_relation (dt ft am tn ip ro nn nr : PyVal) :
    dictFind (mkInfo dt ft am tn ip ro nn nr) "nominee_relation" = some nr := rfl

theorem check_min_amount_ok_sub (info : PyDict) (m : ℚ) (msg : String) (l : List String)
    (h : check_min_amount info m msg = Except.ok l) : l ⊆ [msg] := by
  unfold check_min_amount at h
  repeat' split at h
  all_goals (try (injection h with h2; subst h2))
  all_goals (first | exact List.nil_subset _ | exact List.Subset.refl _ | cases h)

theorem check_tenure_ok_sub (info : PyDict) (p : Int → Bool) (msg : String) (l : List String)
    (h : check_tenure info p msg = Except.ok l) : l ⊆ [msg] := by
  unfold check_tenure at h
  repeat' split at h
  all_goals (try (injection h with h2; subst h2))
  all_goals (first | exact List.nil_subset _ | exact List.Subset.refl _ | cases h)

theorem variant_rules_ok_sub (info : PyDict) (l : List String)
    (h : variant_rules info = Except.ok l) : l ⊆ validate_messages := by
  unfold variant_rules at h
  split at h
  · cases h
  · split at h
    · split at h
      · cases h
      · split at h
        · injection h with h2; subst h2
          simp [validate_messages]
        · split at h
          · refine (check_min_amount_ok_sub _ _ _ _ h).trans ?_
            simp [validate_messages]
          · split at h
            · split at h
              · cases h
              · rename_i e1 he1
                split at h
                · cases h
                · rename_i e2 he2
                  injection h with h2; subst h2
                  intro x hx
                  rcases List.mem_append.mp hx with hx1 | hx1
                  · have hxs := check_min_amount_ok_sub _ _ _ _ he1 hx1
                    simp at hxs
                    simp [validate_messages, hxs]
                  · have hxs := check_tenure_ok_sub _ _ _ _ he2 hx1
                    simp at hxs
                    simp [validate_messages, hxs]
            · injection h with h2; subst h2
              exact List.nil_subset _
    · split at h
      · refine (check_min_amount_ok_sub _ _ _ _ h).trans ?_
        simp [validate_messages]
      · injection h with h2; subst h2
        exact List.nil_subset _

theorem validate_ok_sub (info : PyDict) (errs : List String)
    (h : validate_deposit_info info = Except.ok errs) : errs ⊆ validate_messages := by
  unfold validate_deposit_info at h
  split at h
  · cases h
  · rename_i e1 he1
    split at h
    · cases h
    · rename_i e2 he2
      injection h with h2
      subst h2
      intro x hx
      rcases List.mem_append.mp hx with h1 | h1
      · exact variant_rules_ok_sub _ _ he1 h1
      · have hxs := check_tenure_ok_sub _ _ _ _ he2 h1
        simp at hxs
        simp [validate_messages, hxs]

/-- Claim C2: merging an extraction whose value for a field is absent,
null, or empty leaves that field of the slot set unchanged. -/
theorem merge_no_null_clobber (S E : PyDict) (f : String)
    (hE : dictKeysNodup E)
    (hset : (dictGetD S f).truthy = true)
    (habsent : dictFind E f = Option.none ∨ dictFind E f = some PyVal.null
      ∨ dictFind E f = some (PyVal.str "")) :
    dictFind (merge_deposit_info S E) f = dictFind S f := by
  rw [dictFind_merge S E f hE]
  rcases habsent with h | h | h <;> rw [h] <;> simp [PyVal.truthy]

theorem merge_no_null_clobber_witness :
    dictFind
      (merge_deposit_info
        (mkInfo (PyVal.str "FD") PyVal.null (PyVal.str "10000") PyVal.null PyVal.null
          PyVal.null PyVal.null PyVal.null)
        [("amount", PyVal.null), ("tenure_months", PyVal.str "")])
      "amount"
      = dictFind
          (mkInfo (PyVal.str "FD") PyVal.null (PyVal.str "10000") PyVal.null PyVal.null
            PyVal.null PyVal.null PyVal.null)
          "amount" :=
  merge_no_null_clobber _ _ "amount" (by decide) (by decide)
    (Or.inr (Or.inl (by decide)))

/-- Claim C9: merging the same extraction twice equals merging it once. -/
theorem merge_idempotent (S E : PyDict) (hE : dictKeysNodup E) :
    merge_deposit_info (merge_deposit_info S E) E = merge_deposit_info S E := by
  apply merge_absorb
  intro kv hm ht
  rw [dictFind_merge S E kv.1 hE, mem_dictFind E kv.1 kv.2 hE (by simpa using hm)]
  simp [ht]

theorem merge_idempotent_witness :
    merge_deposit_info
      (merge_deposit_info initial_deposit_info
        [("deposit_type", PyVal.str "RD"), ("amount", PyVal.str "6000")])
      [("deposit_type", PyVal.str "RD"), ("amount", PyVal.str "6000")]
      = merge_deposit_info initial_deposit_info
          [("deposit_type", PyVal.str "RD"), ("amount", PyVal.str "6000")] :=
  merge_idempotent _ _ (by decide)

/-- Claim C4 counterexample: a slot set whose only set field is
`deposit_type` (value `"FD"`) yields a violation caused by the unset
`fd_type`, so the violation list is not empty. -/
theorem validate_unset_field_counterexample :
    validate_deposit_info
      (mkInfo (PyVal.str "FD") PyVal.null PyVal.null PyVal.null PyVal.null PyVal.null
        PyVal.null PyVal.null)
      = Except.ok ["Please specify FD type (Regular or Tax Saver)"] := by decide

/-- Claim C4 as amended: on a slot set whose only set field is
`deposit_type`, the validator returns the specify-FD-type violation when
the deposit type is `"FD"` (an unset field contributing a violation) and
the empty list otherwise. -/
theorem validate_only_deposit_type_set (dt : PyVal) :
    validate_deposit_info
      (mkInfo dt PyVal.null PyVal.null PyVal.null PyVal.null PyVal.null PyVal.null PyVal.null)
      = Except.ok
          (if dt = PyVal.str "FD" then ["Please specify FD type (Regular or Tax Saver)"]
           else []) := by
  by_cases h1 : dt = PyVal.str "FD"
  · subst h1; decide
  · by_cases h2 : dt = PyVal.str "RD"
    · subst h2; decide
    · simp [validate_deposit_info, variant_rules, check_tenure, dictIndex, h1, h2,
        PyVal.truthy]

theorem check_tenure_mkInfo (dt ft am ip ro nn nr : PyVal) (t : String) (n : Int)
    (p : Int → Bool) (msg : String) (ht : ¬ t = "") (htp : pyInt? t = some n) :
    check_tenure (mkInfo dt ft am (PyVal.str t) ip ro nn nr) p msg
      = Except.ok (if p n then [msg] else []) := by
  unfold check_tenure
  rw [show dictIndex (mkInfo dt ft am (PyVal.str t) ip ro nn nr) "tenure_months"
      = Except.ok (PyVal.str t) from rfl]
  simp [PyVal.truthy, pyIntVal, htp, ht]
  split <;> rfl

theorem check_min_amount_mkInfo_str (dt ft tn ip ro nn nr : PyVal) (s : String) (q : ℚ)
    (m : ℚ) (msg : String) (hs : ¬ s = "") (hq : pyFloat? s = some q) :
    check_min_amount (mkInfo dt ft (PyVal.str s) tn ip ro nn nr) m msg
      = Except.ok (if q < m then [msg] else []) := by
  unfold check_min_amount
  rw [show dictIndex (mkInfo dt ft (PyVal.str s) tn ip ro nn nr) "amount"
      = Except.ok (PyVal.str s) from rfl]
  simp [PyVal.truthy, pyFloatVal, hq, hs]
  split <;> rfl

theorem check_min_amount_mkInfo_bad (dt ft tn ip ro nn nr : PyVal) (s : String)
    (m : ℚ) (msg : String) (hs : ¬ s = "") (hq : pyFloat? s = Option.none) :
    check_min_amount (mkInfo dt ft (PyVal.str s) tn ip ro nn nr) m msg
      = Except.error PyErr.valueError := by
  unfold check_min_amount
  rw [show dictIndex (mkInfo dt ft (PyVal.str s) tn ip ro nn nr) "amount"
      = Except.ok (PyVal.str s) from rfl]
  simp [PyVal.truthy, pyFloatVal, hq, hs]

/-- Helper for the tenure-lock analysis: on an FD Tax-Saver slot set
whose set tenure parses as the integer `n`, and on which the validator
returns a list rather than raising, the tenure-lock message is in that
list exactly when `n` is not 60. -/
theorem tax_saver_tenure_lock_parsed (am ip ro nn nr : PyVal) (t : String) (n : Int)
    (errs : List String)
    (htp : pyInt? t = some n)
    (hv : validate_deposit_info
        (mkInfo (PyVal.str "FD") (PyVal.str "TAX_SAVER") am (PyVal.str t) ip ro nn nr)
        = Except.ok errs) :
    ("Tax Saver FD tenure must be 5 years (60 months)" ∈ errs) ↔ n ≠ 60 := by
  have ht : ¬ (t = "") := by
    intro h0
    subst h0
    rw [show pyInt? "" = Option.none from rfl] at htp
    cases htp
  have hvr : variant_rules
      (mkInfo (PyVal.str "FD") (PyVal.str "TAX_SAVER") am (PyVal.str t) ip ro nn nr)
      = match check_min_amount
          (mkInfo (PyVal.str "FD") (PyVal.str "TAX_SAVER") am (PyVal.str t) ip ro nn nr)
          5000 "Tax Saver FD minimum amount is Rs. 5,000" with
        | Except.error e => Except.error e
        | Except.ok e1 =>
            match check_tenure
                (mkInfo (PyVal.str "FD") (PyVal.str "TAX_SAVER") am (PyVal.str t) ip ro nn nr)
                (fun n => n != 60) "Tax Saver FD tenure must be 5 years (60 months)" with
            | Except.error e => Except.error e
            | Except.ok e2 => Except.ok (e1 ++ e2) := rfl
  have hct := check_tenure_mkInfo (PyVal.str "FD") (PyVal.str "TAX_SAVER") am ip ro nn nr
    t n (fun k => k != 60) "Tax Saver FD tenure must be 5 years (60 months)" ht htp
  have hct3 := check_tenure_mkInfo (PyVal.str "FD") (PyVal.str "TAX_SAVER") am ip ro nn nr
    t n (fun k => decide (k < 3)) "Minimum tenure is 3 months" ht htp
  have final : ∀ e1 : List String,
      check_min_amount
        (mkInfo (PyVal.str "FD") (PyVal.str "TAX_SAVER") am (PyVal.str t) ip ro nn nr)
        5000 "Tax Saver FD minimum amount is Rs. 5,000" = Except.ok e1 →
      ("Tax Saver FD tenure must be 5 years (60 months)" ∉ e1) →
      (("Tax Saver FD tenure must be 5 years (60 months)" ∈ errs) ↔ n ≠ 60) := by
    intro e1 hcm hne
    unfold validate_deposit_info at hv
    simp only [hvr, hcm, hct, hct3] at hv
    injection hv with hv2
    subst hv2
    constructor
    · intro hmem
      rcases List.mem_append.mp hmem with h1 | h1
      · rcases List.mem_append.mp h1 with h2 | h2
        · exact absurd h2 hne
        · by_cases h60 : n = 60
          · exfalso
            rw [h60] at h2
            simp at h2
          · exact h60
      · by_cases h3 : n < 3
        · simp [h3] at h1
        · simp [h3] at h1
    · intro h60
      apply List.mem_append.mpr
      left
      apply List.mem_append.mpr
      right
      simp [bne_iff_ne, h60]
  rcases am with _ | s
  · exact final [] rfl (by simp)
  · by_cases hs : s = ""
    · subst hs
      exact final [] rfl (by simp)
    · cases hq : pyFloat? s with
      | none =>
          exfalso
          have hcm := check_min_amount_mkInfo_bad (PyVal.str "FD") (PyVal.str "TAX_SAVER")
            (PyVal.str t) ip ro nn nr s 5000 "Tax Saver FD minimum amount is Rs. 5,000" hs hq
          unfold validate_deposit_info at hv
          simp only [hvr, hcm] at hv
          cases hv
      | some q =>
          have hcm := check_min_amount_mkInfo_str (PyVal.str "FD") (PyVal.str "TAX_SAVER")
            (PyVal.str t) ip ro nn nr s q 5000 "Tax Saver FD minimum amount is Rs. 5,000" hs hq
          refine final _ hcm ?_
          by_cases hql : q < 5000 <;> simp [hql]

/-- Claim C3 counterexample: FD Tax-Saver slot sets with `tenure_months`
set to a non-60 value on which the validator does not return a violation
at all: with tenure `"12"` and amount `"abc"` (the amount parse raises
first), and with the non-numeric tenure `"sixty"` (the tenure parse
raises), `validate_deposit_info` raises `ValueError` — surfaced by the
routes as an internal server error — instead of returning a list. -/
theorem tax_saver_tenure_lock_counterexample :
    validate_deposit_info
      (mkInfo (PyVal.str "FD") (PyVal.str "TAX_SAVER") (PyVal.str "abc")
        (PyVal.str "12") PyVal.null PyVal.null PyVal.null PyVal.null)
      = Except.error PyErr.valueError
    ∧ validate_deposit_info
        (mkInfo (PyVal.str "FD") (PyVal.str "TAX_SAVER") PyVal.null
          (PyVal.str "sixty") PyVal.null PyVal.null PyVal.null PyVal.null)
        = Except.error PyErr.valueError := by decide

/-- Claim C3 as amended: for an FD Tax-Saver slot set whose set tenure
parses as an integer `n` and on which the validator returns a violation
list rather than raising, the tenure-lock violation is in the list
exactly when `n` is not 60 (the value is never silently corrected, the
validator only reports); but the check is not total — a set non-numeric
tenure makes `validate_deposit_info` raise `ValueError` instead of
returning a violation. -/
theorem tax_saver_tenure_lock :
    (∀ (am ip ro nn nr : PyVal) (t : String) (n : Int) (errs : List String),
        pyInt? t = some n →
        validate_deposit_info
            (mkInfo (PyVal.str "FD") (PyVal.str "TAX_SAVER") am (PyVal.str t) ip ro nn nr)
          = Except.ok errs →
        (("Tax Saver FD tenure must be 5 years (60 months)" ∈ errs) ↔ n ≠ 60))
    ∧ (∀ (ip ro nn nr : PyVal) (t : String),
        pyInt? t = Option.none → ¬ t = "" →
        validate_deposit_info
            (mkInfo (PyVal.str "FD") (PyVal.str "TAX_SAVER") PyVal.null (PyVal.str t)
              ip ro nn nr)
          = Except.error PyErr.valueError) := by
  constructor
  · intro am ip ro nn nr t n errs htp hv
    exact tax_saver_tenure_lock_parsed am ip ro nn nr t n errs htp hv
  · intro ip ro nn nr t hnone ht
    have hvr : variant_rules
        (mkInfo (PyVal.str "FD") (PyVal.str "TAX_SAVER") PyVal.null (PyVal.str t)
          ip ro nn nr)
        = match check_min_amount
            (mkInfo (PyVal.str "FD") (PyVal.str "TAX_SAVER") PyVal.null (PyVal.str t)
              ip ro nn nr)
            5000 "Tax Saver FD minimum amount is Rs. 5,000" with
          | Except.error e => Except.error e
          | Except.ok e1 =>
              match check_tenure
                  (mkInfo (PyVal.str "FD") (PyVal.str "TAX_SAVER") PyVal.null
                    (PyVal.str t) ip ro nn nr)
                  (fun n => n != 60) "Tax Saver FD tenure must be 5 years (60 months)" with
              | Except.error e => Except.error e
              | Except.ok e2 => Except.ok (e1 ++ e2) := rfl
    have hcm : check_min_amount
        (mkInfo (PyVal.str "FD") (PyVal.str "TAX_SAVER") PyVal.null (PyVal.str t)
          ip ro nn nr)
        5000 "Tax Saver FD minimum amount is Rs. 5,000" = Except.ok [] := rfl
    have hct : check_tenure
        (mkInfo (PyVal.str "FD") (PyVal.str "TAX_SAVER") PyVal.null (PyVal.str t)
          ip ro nn nr)
        (fun n => n != 60) "Tax Saver FD tenure must be 5 years (60 months)"
        = Except.error PyErr.valueError := by
      unfold check_tenure
      rw [show dictIndex
          (mkInfo (PyVal.str "FD") (PyVal.str "TAX_SAVER") PyVal.null (PyVal.str t)
            ip ro nn nr)
          "tenure_months" = Except.ok (PyVal.str t) from rfl]
      simp [PyVal.truthy, pyIntVal, hnone, ht]
    unfold validate_deposit_info
    simp only [hvr, hcm, hct]

theorem tax_saver_tenure_lock_witness :
    (("Tax Saver FD tenure must be 5 years (60 months)"
        ∈ ["Tax Saver FD tenure must be 5 years (60 months)"]) ↔ (12 : Int) ≠ 60)
    ∧ validate_deposit_info
        (mkInfo (PyVal.str "FD") (PyVal.str "TAX_SAVER") PyVal.null
          (PyVal.str "twelve") PyVal.null PyVal.null PyVal.null PyVal.null)
        = Except.error PyErr.valueError :=
  ⟨tax_saver_tenure_lock.1 (PyVal.str "6000") PyVal.null PyVal.null PyVal.null PyVal.null
      "12" 12 ["Tax Saver FD tenure must be 5 years (60 months)"] (by decide) (by decide),
   tax_saver_tenure_lock.2 PyVal.null PyVal.null PyVal.null PyVal.null "twelve"
      (by decide) (by decide)⟩

/-- Claim C5 counterexample: a set but non-numeric amount makes
`validate_deposit_info` raise `ValueError` (surfaced by the route as an
internal server error) instead of returning a violation. -/
theorem amount_not_parsed_counterexample :
    validate_deposit_info
      (mkInfo (PyVal.str "FD") (PyVal.str "REGULAR") (PyVal.str "abc") PyVal.null
        PyVal.null PyVal.null PyVal.null PyVal.null)
      = Except.error PyErr.valueError := by decide

/-- Claim C5 as amended: under a variant with an amount rule (here FD
Regular), a numeric negative amount yields the below-minimum violation,
but a non-numeric amount raises instead of producing a violation. -/
theorem amount_rule_amended (s : String) (q : ℚ) :
    (pyFloat? s = some q → q < 0 →
      validate_deposit_info
        (mkInfo (PyVal.str "FD") (PyVal.str "REGULAR") (PyVal.str s) PyVal.null
          PyVal.null PyVal.null PyVal.null PyVal.null)
        = Except.ok ["Regular FD minimum amount is Rs. 1,000"])
    ∧ (pyFloat? s = Option.none → ¬ s = "" →
      validate_deposit_info
        (mkInfo (PyVal.str "FD") (PyVal.str "REGULAR") (PyVal.str s) PyVal.null
          PyVal.null PyVal.null PyVal.null PyVal.null)
        = Except.error PyErr.valueError) := by
  constructor
  · intro hq hneg
    have hs : ¬ s = "" := by
      intro h0
      subst h0
      rw [show pyFloat? "" = Option.none from rfl] at hq
      cases hq
    have hcm := check_min_amount_mkInfo_str (PyVal.str "FD") (PyVal.str "REGULAR")
      PyVal.null PyVal.null PyVal.null PyVal.null PyVal.null s q 1000
      "Regular FD minimum amount is Rs. 1,000" hs hq
    have hvr : variant_rules
        (mkInfo (PyVal.str "FD") (PyVal.str "REGULAR") (PyVal.str s) PyVal.null
          PyVal.null PyVal.null PyVal.null PyVal.null)
        = check_min_amount
            (mkInfo (PyVal.str "FD") (PyVal.str "REGULAR") (PyVal.str s) PyVal.null
              PyVal.null PyVal.null PyVal.null PyVal.null)
            1000 "Regular FD minimum amount is Rs. 1,000" := rfl
    have hlt : q < 1000 := lt_trans hneg (by norm_num)
    unfold validate_deposit_info
    simp only [hvr, hcm, if_pos hlt]
    rfl
  · intro hq hs
    have hcm := check_min_amount_mkInfo_bad (PyVal.str "FD") (PyVal.str "REGULAR")
      PyVal.null PyVal.null PyVal.null PyVal.null PyVal.null s 1000
      "Regular FD minimum amount is Rs. 1,000" hs hq
    have hvr : variant_rules
        (mkInfo (PyVal.str "FD") (PyVal.str "REGULAR") (PyVal.str s) PyVal.null
          PyVal.null PyVal.null PyVal.null PyVal.null)
        = check_min_amount
            (mkInfo (PyVal.str "FD") (PyVal.str "REGULAR") (PyVal.str s) PyVal.null
              PyVal.null PyVal.null PyVal.null PyVal.null)
            1000 "Regular FD minimum amount is Rs. 1,000" := rfl
    unfold validate_deposit_info
    simp only [hvr, hcm]

theorem amount_rule_amended_witness :
    validate_deposit_info
      (mkInfo (PyVal.str "FD") (PyVal.str "REGULAR") (PyVal.str "-100") PyVal.null
        PyVal.null PyVal.null PyVal.null PyVal.null)
      = Except.ok ["Regular FD minimum amount is Rs. 1,000"]
    ∧ validate_deposit_info
        (mkInfo (PyVal.str "FD") (PyVal.str "REGULAR") (PyVal.str "12x") PyVal.null
          PyVal.null PyVal.null PyVal.null PyVal.null)
        = Except.error PyErr.valueError :=
  ⟨(amount_rule_amended "-100" (-100)).1 (by decide) (by decide),
   (amount_rule_amended "12x" 0).2 (by decide) (by decide)⟩

/-- Claim C10 counterexample: `validate_deposit_info` is total on a map
that lacks the `fd_type` key, so totality does not require all four of
the named keys. -/
theorem validate_total_without_fd_type_key :
    validate_deposit_info
      [("deposit_type", PyVal.str "RD"), ("amount", PyVal.str "5000"),
       ("tenure_months", PyVal.str "12")]
      = Except.ok []
    ∧ dictHasKey
        [("deposit_type", PyVal.str "RD"), ("amount", PyVal.str "5000"),
         ("tenure_months", PyVal.str "12")]
        "fd_type" = false := by decide

/-- Claim C10 as amended: `validate_deposit_info` unconditionally indexes
`deposit_type`, so any map without that key — as `/api/validate` can
supply from an arbitrary request body — raises `KeyError`, and the
endpoint answers with an internal server error. -/
theorem validate_missing_deposit_type_keyerror :
    (∀ d : PyDict, dictFind d "deposit_type" = Option.none →
        validate_deposit_info d = Except.error (PyErr.keyError "deposit_type"))
    ∧ validate_deposit [] = ApiValidateResult.internalError := by
  constructor
  · intro d h
    simp [validate_deposit_info, variant_rules, dictIndex, h]
  · decide

theorem validate_missing_deposit_type_keyerror_witness :
    validate_deposit_info [("amount", PyVal.str "1")]
      = Except.error (PyErr.keyError "deposit_type") :=
  validate_missing_deposit_type_keyerror.1 [("amount", PyVal.str "1")] (by decide)

/-- Claim C1 counterexample: merging an RD-only renewal value into an
FD-Regular session stores it, and the validator then reports no
violation at all. -/
theorem renewal_domain_counterexample :
    dictFind
      (merge_deposit_info
        (mkInfo (PyVal.str "FD") (PyVal.str "REGULAR") (PyVal.str "10000")
          (PyVal.str "12") (PyVal.str "AT_MATURITY") PyVal.null PyVal.null PyVal.null)
        [("renewal_option", PyVal.str "TRANSFER_TO_ACCOUNT")])
      "renewal_option" = some (PyVal.str "TRANSFER_TO_ACCOUNT")
    ∧ validate_deposit_info
        (merge_deposit_info
          (mkInfo (PyVal.str "FD") (PyVal.str "REGULAR") (PyVal.str "10000")
            (PyVal.str "12") (PyVal.str "AT_MATURITY") PyVal.null PyVal.null PyVal.null)
          [("renewal_option", PyVal.str "TRANSFER_TO_ACCOUNT")])
        = Except.ok [] := by decide

/-- Claim C1 as amended: the merge stores any non-empty extracted
`renewal_option` whatever the session's variant, and the validator can
only ever emit the six fixed messages, none of which concerns
`renewal_option` — the domain filtering is delegated entirely to the
extraction collaborator's prompt. -/
theorem renewal_no_domain_enforcement :
    (∀ (S E : PyDict) (s : String), dictKeysNodup E → ¬ s = "" →
        dictFind E "renewal_option" = some (PyVal.str s) →
        dictFind (merge_deposit_info S E) "renewal_option" = some (PyVal.str s))
    ∧ (∀ (info : PyDict) (errs : List String),
        validate_deposit_info info = Except.ok errs → errs ⊆ validate_messages) := by
  constructor
  · intro S E s hE hs hfind
    rw [dictFind_merge S E _ hE, hfind]
    simp [PyVal.truthy, hs]
  · exact validate_ok_sub

theorem renewal_no_domain_enforcement_witness :
    dictFind
      (merge_deposit_info initial_deposit_info
        [("renewal_option", PyVal.str "DO_NOT_RENEW")])
      "renewal_option" = some (PyVal.str "DO_NOT_RENEW")
    ∧ ["Minimum tenure is 3 months"] ⊆ validate_messages :=
  ⟨renewal_no_domain_enforcement.1 initial_deposit_info
      [("renewal_option", PyVal.str "DO_NOT_RENEW")] "DO_NOT_RENEW"
      (by decide) (by decide) (by decide),
   renewal_no_domain_enforcement.2
      (mkInfo (PyVal.str "RD") PyVal.null PyVal.null (PyVal.str "2") PyVal.null
        PyVal.null PyVal.null PyVal.null)
      ["Minimum tenure is 3 months"] (by decide)⟩

/-- Claim C6 counterexample: for an FD-Regular session with only the
amount set, a free-form turn that extracts nothing asks the collaborator
about `tenure_months, renewal_option, interest_payout` — a different
list (and order) than the claimed
`tenure_months, fd_type, interest_payout, renewal_option` — and the
user-visible prompt is the collaborator's text, not a fixed string. -/
theorem missing_prompt_counterexample :
    process_deposit
      (mkInfo (PyVal.str "FD") (PyVal.str "REGULAR") (PyVal.str "10000") PyVal.null
        PyVal.null PyVal.null PyVal.null PyVal.null)
      "hello" (Except.ok "\x7b\x7d")
      (fun _ => Except.ok "Could you share the missing details?")
      = TurnResult.processed
          (mkInfo (PyVal.str "FD") (PyVal.str "REGULAR") (PyVal.str "10000") PyVal.null
            PyVal.null PyVal.null PyVal.null PyVal.null)
          (Prompt.askMissing ["tenure_months", "renewal_option", "interest_payout"]
            "Could you share the missing details?")
    ∧ ["tenure_months", "renewal_option", "interest_payout"]
        ≠ ["tenure_months", "fd_type", "interest_payout", "renewal_option"] := by
  constructor
  · rfl
  · decide

/-- Claim C6 as amended: a free-form turn on an FD-Regular session with
only the amount set whose extraction adds nothing stays in collecting
(`processed`, `proceed_to_pay` false) and asks the collaborator for
exactly `tenure_months, renewal_option, interest_payout` — the
`required_fields` order of the source — with the prompt text being
whatever the collaborator answers. -/
theorem missing_prompt_amended (r : Except String String)
    (m : List String → Except String String)
    (hext : get_deposit_details r = Except.ok []) :
    free_form_turn
      (mkInfo (PyVal.str "FD") (PyVal.str "REGULAR") (PyVal.str "10000") PyVal.null
        PyVal.null PyVal.null PyVal.null PyVal.null) r m
      = TurnResult.processed
          (mkInfo (PyVal.str "FD") (PyVal.str "REGULAR") (PyVal.str "10000") PyVal.null
            PyVal.null PyVal.null PyVal.null PyVal.null)
          (Prompt.askMissing ["tenure_months", "renewal_option", "interest_payout"]
            (get_gemini_response
              (m ["tenure_months", "renewal_option", "interest_payout"]))) := by
  unfold free_form_turn
  rw [hext]
  rfl

theorem missing_prompt_amended_witness :
    free_form_turn
      (mkInfo (PyVal.str "FD") (PyVal.str "REGULAR") (PyVal.str "10000") PyVal.null
        PyVal.null PyVal.null PyVal.null PyVal.null)
      (Except.ok "\x7b\x7d") (fun _ => Except.ok "ok")
      = TurnResult.processed
          (mkInfo (PyVal.str "FD") (PyVal.str "REGULAR") (PyVal.str "10000") PyVal.null
            PyVal.null PyVal.null PyVal.null PyVal.null)
          (Prompt.askMissing ["tenure_months", "renewal_option", "interest_payout"] "ok") :=
  missing_prompt_amended (Except.ok "\x7b\x7d") (fun _ => Except.ok "ok") (by decide)

/-- Claim C7 counterexample: an extraction response that is not JSON
makes the turn fail with the handler's internal-server-error branch
instead of completing with a prompt. -/
theorem extraction_unparseable_counterexample :
    process_deposit initial_deposit_info "hello"
      (Except.ok "Sorry, I cannot produce JSON.") (fun _ => Except.ok "x")
      = TurnResult.internalError := rfl

/-- Claim C7 as amended: a collaborator API failure degrades to "no
fields extracted" (the literal empty-object text, an empty merge, and a
turn identical to one whose extraction returned the empty object), but
an unparseable collaborator response raises in `json.loads` and aborts
the turn with an internal server error. -/
theorem extraction_failure_amended :
    (∀ e : String, get_deposit_details (Except.error e) = Except.ok [])
    ∧ (∀ S : PyDict, merge_deposit_info S [] = S)
    ∧ (∀ (info : PyDict) (e : String) (m : List String → Except String String),
        free_form_turn info (Except.error e) m
          = free_form_turn info (Except.ok "\x7b\x7d") m)
    ∧ (∀ (info : PyDict) (text : String) (m : List String → Except String String),
        get_deposit_details (Except.ok text) = Except.error PyErr.valueError →
        free_form_turn info (Except.ok text) m = TurnResult.internalError) := by
  refine ⟨fun e => rfl, fun S => rfl, fun info e m => rfl, fun info text m h => ?_⟩
  unfold free_form_turn
  rw [h]

theorem extraction_failure_amended_witness :
    free_form_turn initial_deposit_info
      (Except.ok "I am unable to help with that request.") (fun _ => Except.ok "x")
      = TurnResult.internalError :=
  extraction_failure_amended.2.2.2 initial_deposit_info
    "I am unable to help with that request." (fun _ => Except.ok "x") (by decide)

theorem change_prefix_not_command (u : String)
    (hpre : pyStartsWith (pyLower u) "change " = true) :
    pyLower u ∉ cancel_words ∧ ¬ pyLower u = "confirm" := by
  obtain ⟨t, ht⟩ := List.isPrefixOf_iff_prefix.mp hpre
  have hu : (pyLower u).toList = 'c' :: 'h' :: 'a' :: 'n' :: 'g' :: 'e' :: ' ' :: t :=
    ht.symm
  have hne_exit : ¬ pyLower u = "exit" := by
    intro he
    have h2 : ("exit" : String).toList
        = 'c' :: 'h' :: 'a' :: 'n' :: 'g' :: 'e' :: ' ' :: t := he ▸ hu
    injection h2 with c1 _
    exact absurd c1 (by decide)
  have hne_quit : ¬ pyLower u = "quit" := by
    intro he
    have h2 : ("quit" : String).toList
        = 'c' :: 'h' :: 'a' :: 'n' :: 'g' :: 'e' :: ' ' :: t := he ▸ hu
    injection h2 with c1 _
    exact absurd c1 (by decide)
  have hne_cancel : ¬ pyLower u = "cancel" := by
    intro he
    have h2 : ("cancel" : String).toList
        = 'c' :: 'h' :: 'a' :: 'n' :: 'g' :: 'e' :: ' ' :: t := he ▸ hu
    injection h2 with _ h3
    injection h3 with c2 _
    exact absurd c2 (by decide)
  have hne_stop : ¬ pyLower u = "stop" := by
    intro he
    have h2 : ("stop" : String).toList
        = 'c' :: 'h' :: 'a' :: 'n' :: 'g' :: 'e' :: ' ' :: t := he ▸ hu
    injection h2 with c1 _
    exact absurd c1 (by decide)
  have hne_confirm : ¬ pyLower u = "confirm" := by
    intro he
    have h2 : ("confirm" : String).toList
        = 'c' :: 'h' :: 'a' :: 'n' :: 'g' :: 'e' :: ' ' :: t := he ▸ hu
    injection h2 with _ h3
    injection h3 with c2 _
    exact absurd c2 (by decide)
  refine ⟨?_, hne_confirm⟩
  intro hm
  simp [cancel_words] at hm
  rcases hm with h | h | h | h
  · exact hne_exit h
  · exact hne_quit h
  · exact hne_cancel h
  · exact hne_stop h

/-- Claim C8: command classification runs case-insensitively before any
extraction, in fixed precedence — a cancel word always cancels (even if
it could be a field value), `confirm` always enters the confirm branch
(for every extraction response, so no extraction call matters), a
`change` whose alias is recognized clears exactly the mapped fields
(`nominee` clearing both nominee fields), and a `change` with an
unrecognized alias falls through to the free-form turn. -/
theorem command_precedence :
    (∀ (info : PyDict) (u : String) (r : Except String String)
        (m : List String → Except String String),
        pyLower u ∈ cancel_words → process_deposit info u r m = TurnResult.cancelled)
    ∧ (∀ (info : PyDict) (u : String) (r : Except String String)
        (m : List String → Except String String),
        pyLower u = "confirm" → process_deposit info u r m = confirm_turn info)
    ∧ (∀ (info : PyDict) (u : String) (r : Except String String)
        (m : List String → Except String String) (keys : List String),
        pyStartsWith (pyLower u) "change " = true →
        assocFind field_mappings (pyStrip (pyDrop (pyLower u) 7)) = some keys →
        process_deposit info u r m
          = TurnResult.fieldChanged
              (keys.foldl (fun acc k => dictSet acc k PyVal.null) info)
              (pyStrip (pyDrop (pyLower u) 7)))
    ∧ (∀ (info : PyDict) (u : String) (r : Except String String)
        (m : List String → Except String String),
        pyLower u = "change nominee" →
        process_deposit info u r m
          = TurnResult.fieldChanged
              (dictSet (dictSet info "nominee_name" PyVal.null) "nominee_relation"
                PyVal.null)
              "nominee"
        ∧ dictFind
            (dictSet (dictSet info "nominee_name" PyVal.null) "nominee_relation"
              PyVal.null)
            "nominee_name" = some PyVal.null
        ∧ dictFind
            (dictSet (dictSet info "nominee_name" PyVal.null) "nominee_relation"
              PyVal.null)
            "nominee_relation" = some PyVal.null)
    ∧ (∀ (info : PyDict) (u : String) (r : Except String String)
        (m : List String → Except String String),
        pyStartsWith (pyLower u) "change " = true →
        assocFind field_mappings (pyStrip (pyDrop (pyLower u) 7)) = Option.none →
        process_deposit info u r m = free_form_turn info r m) := by
  refine ⟨?_, ?_, ?_, ?_, ?_⟩
  · intro info u r m h
    simp [process_deposit, h]
  · intro info u r m h
    simp only [process_deposit]
    rw [h]
    rfl
  · intro info u r m keys hpre hlk
    obtain ⟨hmem, hconf⟩ := change_prefix_not_command u hpre
    simp only [process_deposit]
    rw [if_neg hmem, if_neg hconf, if_pos hpre, hlk]
  · intro info u r m h
    refine ⟨?_, ?_, ?_⟩
    · simp only [process_deposit]
      rw [h]
      rw [show pyStrip (pyDrop "change nominee" 7) = "nominee" from by decide]
      rfl
    · rw [dictFind_dictSet_ne _ _ _ _ (by decide), dictFind_dictSet_self]
    · rw [dictFind_dictSet_self]
  · intro info u r m hpre hlk
    obtain ⟨hmem, hconf⟩ := change_prefix_not_command u hpre
    simp only [process_deposit]
    rw [if_neg hmem, if_neg hconf, if_pos hpre, hlk]

theorem command_precedence_witness :
    process_deposit initial_deposit_info "CANCEL" (Except.ok "x") (fun _ => Except.ok "x")
      = TurnResult.cancelled
    ∧ process_deposit initial_deposit_info "Confirm" (Except.ok "x")
        (fun _ => Except.ok "x") = confirm_turn initial_deposit_info
    ∧ process_deposit initial_deposit_info "change  Tenure " (Except.ok "x")
        (fun _ => Except.ok "x")
        = TurnResult.fieldChanged (dictSet initial_deposit_info "tenure_months" PyVal.null)
            "tenure"
    ∧ process_deposit initial_deposit_info "Change Nominee" (Except.ok "x")
        (fun _ => Except.ok "x")
        = TurnResult.fieldChanged
            (dictSet (dictSet initial_deposit_info "nominee_name" PyVal.null)
              "nominee_relation" PyVal.null)
            "nominee"
    ∧ process_deposit initial_deposit_info "change colour" (Except.ok "x")
        (fun _ => Except.ok "x")
        = free_form_turn initial_deposit_info (Except.ok "x") (fun _ => Except.ok "x") :=
  ⟨command_precedence.1 initial_deposit_info "CANCEL" _ _ (by decide),
   command_precedence.2.1 initial_deposit_info "Confirm" _ _ (by decide),
   command_precedence.2.2.1 initial_deposit_info "change  Tenure " (Except.ok "x")
      (fun _ => Except.ok "x") ["tenure_months"] (by decide) (by decide),
   (command_precedence.2.2.2.1 initial_deposit_info "Change Nominee" (Except.ok "x")
      (fun _ => Except.ok "x") (by decide)).1,
   command_precedence.2.2.2.2 initial_deposit_info "change colour" _ _ (by decide)
     (by decide)⟩
